import Mathlib

/-!
# Verification of the Hotels-of-Athens static site generator

Shallow embedding of `scripts/generate.js` and `scripts/fetch-hotels.js`.
JavaScript numbers are modelled as `Nat`/`Int`/`Rat` (all prices in the data
model are integers; `Math.round` on a nonnegative value is `⌊x + 1/2⌋`), JS
strings as Lean `String`/`List Char`, and optional record fields as `Option`.
The generation run's current date (`new Date().toISOString().split('T')[0]`)
is passed in as an explicit string parameter.
-/

namespace Athens

/-! ## JS semantics helpers -/

/-- JS template-literal rendering of a boolean (`${b}` gives "true"/"false"). -/
def jsBool (b : Bool) : String := if b then "true" else "false"

/-- JS `a || b` for a possibly-absent string `a`: `undefined` and the empty
string are falsy, so both fall back to `b`. -/
def jsOrStr (a : Option String) (b : String) : String :=
  match a with
  | some s => if s = "" then b else s
  | none => b

/-- JS template-literal rendering of a possibly-absent string:
`undefined` prints as the literal text "undefined". -/
def jsStrOpt (a : Option String) : String := a.getD "undefined"

/-- JS `Math.round` on an exact rational input: round half toward positive
infinity, i.e. `⌊q + 1/2⌋` (written via `Rat.num`/`Rat.den` so that it is
kernel-computable; `jsRound_eq` states the floor form). -/
def jsRound (q : ℚ) : ℤ := (q + 1/2).num / ((q + 1/2).den : ℤ)

/-- `jsRound` is the floor of `q + 1/2`, i.e. round-half-up to the nearest
integer — exactly JS `Math.round` on exact rational inputs. -/
theorem jsRound_eq (q : ℚ) : jsRound q = ⌊q + 1/2⌋ := Rat.floor_def.symm

/-- JS `h.rooftopRating >= 4` where the field may be `undefined`
(`undefined >= 4` is `false`). -/
def rooftopAtLeast4 (r : Option ℕ) : Bool :=
  match r with
  | some v => decide (4 ≤ v)
  | none => false

/-- JS `h.rooftopRating || 0` (`undefined` is falsy, and `0 || 0 = 0`). -/
def rooftopOrZero (r : Option ℕ) : ℕ := r.getD 0

/-! ## Data model (records of `all-hotels.json` / `neighborhoods.json`) -/

structure Neighborhood where
  id : String
  name : String
  emoji : String
  tagline : String
  description : String
  avgPrice : ℕ
  walkToAcropolis : String
  vibe : List String
  bestFor : List String
  deriving Repr, DecidableEq

structure Hotel where
  id : String
  slug : String
  name : String
  starRating : ℕ
  pricePerNight : ℕ
  neighborhood : String
  neighborhoodName : Option String
  distanceToAcropolis : String
  hasAcropolisView : Bool
  hasRooftopBar : Bool
  rooftopRating : Option ℕ
  amenities : Option (List String)
  pros : Option (List String)
  cons : Option (List String)
  bestFor : Option (List String)
  overview : Option String
  deriving Repr, DecidableEq

/-- Counts of the four price buckets of `priceStats` in `all-hotels.json`. -/
structure PriceStats where
  budgetCount : ℕ
  midRangeCount : ℕ
  upscaleCount : ℕ
  luxuryCount : ℕ
  deriving Repr, DecidableEq

/-- The consolidated `all-hotels.json` document as read by `generate.js`. -/
structure AllHotelsData where
  totalHotels : ℕ
  avgPrice : ℤ
  priceStats : PriceStats
  hotels : List Hotel
  deriving Repr, DecidableEq

/-- One per-neighborhood `data/hotels/<id>.json` document. -/
structure HoodFile where
  hotelCount : ℕ
  hotels : List Hotel
  deriving Repr, DecidableEq

/-- The six HTML templates loaded from `templates/`. -/
structure Templates where
  layout : String
  home : String
  neighborhood : String
  hotel : String
  contact : String
  thankYou : String
  deriving Repr, DecidableEq

/-! ## String machinery (JS string methods used by the scripts) -/

/-- JS `String.prototype.toLowerCase` restricted to one character; the
repository's data is ASCII, where JS lowercasing maps exactly 'A'..'Z'
down by 32 and leaves everything else unchanged. -/
def jsToLowerChar (c : Char) : Char :=
  if 'A' ≤ c ∧ c ≤ 'Z' then Char.ofNat (c.toNat + 32) else c

/-- JS `s.toLowerCase()` (ASCII domain). -/
def jsToLower (s : String) : String := String.mk (s.data.map jsToLowerChar)

/-- The JS regex class `\s` on the ASCII range (space, tab, LF, VT, FF, CR). -/
def isJsSpace (c : Char) : Bool :=
  c = ' ' ∨ c = '\t' ∨ c = '\n' ∨ c = '\x0b' ∨ c = '\x0c' ∨ c = '\r'

/-- Characters kept by `replace(/[^a-z0-9\s-]/g, '')` in `generateSlug`. -/
def keepSlugChar (c : Char) : Bool :=
  ('a' ≤ c ∧ c ≤ 'z') ∨ ('0' ≤ c ∧ c ≤ '9') ∨ isJsSpace c ∨ c = '-'

/-- Worker for `collapseRuns`: the Bool records whether we are inside a run
of `p`-characters (whose first character was already replaced by `r`). -/
def collapseRunsGo (p : Char → Bool) (r : Char) : Bool → List Char → List Char
  | _, [] => []
  | inRun, c :: cs =>
    if p c then
      if inRun then collapseRunsGo p r true cs
      else r :: collapseRunsGo p r true cs
    else c :: collapseRunsGo p r false cs

/-- JS `s.replace(/X+/g, r)` for a character class `X`: each maximal run of
`p`-characters is replaced by the single character `r`. -/
def collapseRuns (p : Char → Bool) (r : Char) (l : List Char) : List Char :=
  collapseRunsGo p r false l

/-- JS `String.prototype.trim`: strip leading and trailing whitespace. -/
def jsTrim (l : List Char) : List Char :=
  ((l.dropWhile isJsSpace).reverse.dropWhile isJsSpace).reverse

/-- JS `s.replace(pat, rep)` with a plain-string pattern: replace the first
occurrence only (the input is returned unchanged when `pat` is absent). -/
def replaceFirstL (pat rep : List Char) : List Char → List Char
  | [] => if pat = [] then rep else []
  | c :: cs =>
    if pat.isPrefixOf (c :: cs) then rep ++ (c :: cs).drop pat.length
    else c :: replaceFirstL pat rep cs

/-- Fuelled worker for `replaceAllL` (structural recursion on the fuel so
that the kernel can evaluate it; the fuel is always at least the length of
the remaining input, and every step consumes at least one character). -/
def replaceAllGo (pat rep : List Char) : ℕ → List Char → List Char
  | _, [] => []
  | 0, l => l
  | fuel + 1, c :: cs =>
    if pat ≠ [] ∧ pat.isPrefixOf (c :: cs) then
      rep ++ replaceAllGo pat rep fuel ((c :: cs).drop pat.length)
    else c :: replaceAllGo pat rep fuel cs

/-- JS `s.replace(/pat/g, rep)` for a literal (non-empty) pattern: replace
every non-overlapping occurrence left to right; the replacement text is not
rescanned. (The scripts never use an empty pattern; for `pat = []` we return
the input unchanged.) -/
def replaceAllL (pat rep l : List Char) : List Char :=
  replaceAllGo pat rep l.length l

/-- String wrapper for `replaceFirstL`. -/
def jsReplaceFirst (s pat rep : String) : String :=
  String.mk (replaceFirstL pat.data rep.data s.data)

/-- String wrapper for `replaceAllL`. -/
def jsReplaceAll (s pat rep : String) : String :=
  String.mk (replaceAllL pat.data rep.data s.data)

/-- JS `s.split('.')[0]`: the characters before the first '.', or the whole
string when no '.' occurs. -/
def splitDotHead (s : String) : String :=
  String.mk (s.data.takeWhile (fun c => c ≠ '.'))

/-! ## fetch-hotels.js: `generateSlug` (line 109) -/

/-- `generateSlug` (fetch-hotels.js line 109):
lowercase, drop characters outside `[a-z0-9\s-]`, collapse whitespace runs
to '-', collapse '-' runs to '-', trim, then append "-athens". -/
def generateSlug (name : String) : String :=
  String.mk
    (jsTrim
      (collapseRuns (fun c => c = '-') '-'
        (collapseRuns isJsSpace '-'
          ((name.data.map jsToLowerChar).filter keepSlugChar)))) ++ "-athens"

/-! ## generate.js helpers: stars and price tiers -/

/-- `generateStars` (generate.js line 42):
`'★'.repeat(rating) + '☆'.repeat(5 - rating)`.
For `rating ≤ 5` this agrees with JS exactly; JS throws on `rating > 5`
(negative repeat count) where Nat subtraction truncates. -/
def generateStars (rating : ℕ) : String :=
  String.mk (List.replicate rating '★' ++ List.replicate (5 - rating) '☆')

/-- `getPriceTier` (generate.js line 47). -/
def getPriceTier (price : ℤ) : String :=
  if price < 80 then "budget"
  else if price < 150 then "mid"
  else if price < 250 then "upscale"
  else "luxury"

/-! ## generate.js: encodeURIComponent (booking URL) -/

/-- Uppercase hexadecimal digit. -/
def hexDigit (n : ℕ) : Char := "0123456789ABCDEF".data.getD n '0'

/-- UTF-8 bytes of a code point. -/
def utf8Bytes (n : ℕ) : List ℕ :=
  if n < 0x80 then [n]
  else if n < 0x800 then [0xC0 + n / 64, 0x80 + n % 64]
  else if n < 0x10000 then [0xE0 + n / 4096, 0x80 + (n / 64) % 64, 0x80 + n % 64]
  else [0xF0 + n / 262144, 0x80 + (n / 4096) % 64, 0x80 + (n / 64) % 64, 0x80 + n % 64]

/-- Characters left unescaped by JS `encodeURIComponent`. -/
def uriUnreserved (c : Char) : Bool :=
  ('A' ≤ c ∧ c ≤ 'Z') ∨ ('a' ≤ c ∧ c ≤ 'z') ∨ ('0' ≤ c ∧ c ≤ '9') ∨
  c ∈ ['-', '_', '.', '!', '~', '*', '\x27', '(', ')']

/-- Percent-encoding of one character (UTF-8 bytes, uppercase hex). -/
def uriEncodeChar (c : Char) : String :=
  if uriUnreserved c then String.mk [c]
  else String.join ((utf8Bytes c.toNat).map
    (fun b => String.mk ['%', hexDigit (b / 16), hexDigit (b % 16)]))

/-- JS `encodeURIComponent`. -/
def encodeURIComponent (s : String) : String :=
  String.join (s.data.map uriEncodeChar)

/-! ## generate.js: layout wrapper and card fragments -/

/-- `wrapInLayout` (generate.js line 33): PAGE_TITLE, PAGE_DESCRIPTION and
PAGE_URL are `/.../g` (replace-all) regexes, CONTENT is a plain-string
pattern (first occurrence only). -/
def wrapInLayout (layoutT content title description url : String) : String :=
  let s1 := jsReplaceAll layoutT "\x7b\x7bPAGE_TITLE\x7d\x7d" title
  let s2 := jsReplaceAll s1 "\x7b\x7bPAGE_DESCRIPTION\x7d\x7d" description
  let s3 := jsReplaceAll s2 "\x7b\x7bPAGE_URL\x7d\x7d" url
  jsReplaceFirst s3 "\x7b\x7bCONTENT\x7d\x7d" content

/-- The badge list built by `generateHotelCard` (generate.js lines 56-58). -/
def cardBadges (h : Hotel) : List String :=
  (if h.hasAcropolisView
    then ["<span class=\"badge badge-view\">🏛️ Acropolis View</span>"] else []) ++
  (if h.hasRooftopBar
    then ["<span class=\"badge badge-rooftop\">🍸 Rooftop Bar</span>"] else [])

/-- `generateHotelCard` (generate.js line 55): the template literal,
byte for byte. -/
def generateHotelCard (h : Hotel) : String :=
  "\n    <a href=\"/hotel/" ++ h.slug ++ "\" class=\"hotel-card\" data-tier=\"" ++
  getPriceTier (h.pricePerNight : ℤ) ++ "\" data-view=\"" ++
  jsBool h.hasAcropolisView ++ "\">\n      <div class=\"hotel-card-image\">🏨</div>\n      <div class=\"hotel-card-content\">\n        <h3>" ++
  h.name ++ "</h3>\n        <div class=\"hotel-card-meta\">\n          <span>" ++
  generateStars h.starRating ++ "</span>\n          <span>•</span>\n          <span>" ++
  jsOrStr h.neighborhoodName h.neighborhood ++
  "</span>\n        </div>\n        <div class=\"hotel-card-badges\">" ++
  String.join (cardBadges h) ++
  "</div>\n        <div class=\"hotel-card-price\">\n          <span class=\"from\">from</span>\n          <span class=\"price\">€" ++
  toString h.pricePerNight ++
  "</span>\n          <span class=\"per\">/night</span>\n        </div>\n      </div>\n    </a>\n  "

/-- `generateNeighborhoodCard` (generate.js line 82). -/
def generateNeighborhoodCard (hood : Neighborhood) : String :=
  "\n    <a href=\"/athens-hotels/" ++ hood.id ++
  "\" class=\"neighborhood-card\">\n      <span class=\"emoji\">" ++ hood.emoji ++
  "</span>\n      <h3>" ++ hood.name ++
  "</h3>\n      <p class=\"price\">from €" ++ toString hood.avgPrice ++
  "/night</p>\n      <p class=\"walk\">" ++ hood.walkToAcropolis ++
  " to Acropolis</p>\n    </a>\n  "

/-! ## generate.js: homepage -/

/-- The homepage Acropolis-view selection (generate.js lines 101-103):
filter then `slice(0, 6)`. -/
def acropolisViewSelection (hotels : List Hotel) : List Hotel :=
  (hotels.filter (fun h => h.hasAcropolisView)).take 6

/-- The homepage rooftop selection (generate.js lines 107-109):
`h.hasRooftopBar && h.rooftopRating >= 4`, then `slice(0, 6)`. -/
def rooftopSelection (hotels : List Hotel) : List Hotel :=
  (hotels.filter (fun h => h.hasRooftopBar && rooftopAtLeast4 h.rooftopRating)).take 6

/-- `generateHomepage` (generate.js line 94), returning the HTML written to
`index.html`. -/
def generateHomepage (T : Templates) (N : List Neighborhood) (A : AllHotelsData) : String :=
  let neighborhoodsGrid := String.join (N.map generateNeighborhoodCard)
  let acropolisViewHotels := String.join ((acropolisViewSelection A.hotels).map generateHotelCard)
  let rooftopHotels := String.join ((rooftopSelection A.hotels).map generateHotelCard)
  let c1 := jsReplaceAll T.home "\x7b\x7bTOTAL_HOTELS\x7d\x7d" (toString A.totalHotels)
  let c2 := jsReplaceFirst c1 "\x7b\x7bAVG_PRICE\x7d\x7d" (toString A.avgPrice)
  let c3 := jsReplaceFirst c2 "\x7b\x7bBUDGET_COUNT\x7d\x7d" (toString A.priceStats.budgetCount)
  let c4 := jsReplaceFirst c3 "\x7b\x7bMID_COUNT\x7d\x7d" (toString A.priceStats.midRangeCount)
  let c5 := jsReplaceFirst c4 "\x7b\x7bUPSCALE_COUNT\x7d\x7d" (toString A.priceStats.upscaleCount)
  let c6 := jsReplaceFirst c5 "\x7b\x7bLUXURY_COUNT\x7d\x7d" (toString A.priceStats.luxuryCount)
  let c7 := jsReplaceFirst c6 "\x7b\x7bNEIGHBORHOODS_GRID\x7d\x7d" neighborhoodsGrid
  let c8 := jsReplaceFirst c7 "\x7b\x7bACROPOLIS_VIEW_HOTELS\x7d\x7d" acropolisViewHotels
  let c9 := jsReplaceFirst c8 "\x7b\x7bROOFTOP_HOTELS\x7d\x7d" rooftopHotels
  wrapInLayout T.layout c9 "Compare Hotels by Neighborhood"
    ("Discover " ++ toString A.totalHotels ++
     "+ Athens hotels. Compare prices, Acropolis views, rooftop bars by neighborhood.")
    "https://hotelsofathens.com/"

/-! ## generate.js: neighborhood pages -/

/-- One iteration of `generateNeighborhoodPages` (generate.js line 135),
returning the HTML written to `athens-hotels/<id>.html`. -/
def generateNeighborhoodPage (T : Templates) (N : List Neighborhood)
    (hood : Neighborhood) (hoodData : HoodFile) : String :=
  let hotelsGrid := String.join (hoodData.hotels.map generateHotelCard)
  let vibeTags := String.join (hood.vibe.map
    (fun v => "<span class=\"vibe-tag\">" ++ v ++ "</span>"))
  let nearby := String.join (((N.filter (fun n => n.id ≠ hood.id)).take 4).map
    generateNeighborhoodCard)
  let faqGoodArea := "Yes! " ++ hood.name ++ " is " ++
    jsToLower (splitDotHead hood.description) ++
    ". It\x27s especially good for " ++
    jsToLower (String.intercalate ", " hood.bestFor) ++ "."
  let faqDistance := "Most hotels in " ++ hood.name ++
    " are within easy walking distance of the Acropolis and other major attractions."
  let faqPrice :=
    "You can find options ranging from budget hostels to luxury hotels depending on your preferences."
  let c1 := jsReplaceAll T.neighborhood "\x7b\x7bNAME\x7d\x7d" hood.name
  let c2 := jsReplaceAll c1 "\x7b\x7bEMOJI\x7d\x7d" hood.emoji
  let c3 := jsReplaceAll c2 "\x7b\x7bTAGLINE\x7d\x7d" hood.tagline
  let c4 := jsReplaceAll c3 "\x7b\x7bDESCRIPTION\x7d\x7d" hood.description
  let c5 := jsReplaceAll c4 "\x7b\x7bHOTEL_COUNT\x7d\x7d" (toString hoodData.hotelCount)
  let c6 := jsReplaceAll c5 "\x7b\x7bAVG_PRICE\x7d\x7d" (toString hood.avgPrice)
  let c7 := jsReplaceAll c6 "\x7b\x7bWALK_TIME\x7d\x7d" hood.walkToAcropolis
  let c8 := jsReplaceFirst c7 "\x7b\x7bVIBE_TAGS\x7d\x7d" vibeTags
  let c9 := jsReplaceFirst c8 "\x7b\x7bBEST_FOR\x7d\x7d" (String.intercalate ", " hood.bestFor)
  let c10 := jsReplaceFirst c9 "\x7b\x7bHOTELS_GRID\x7d\x7d" hotelsGrid
  let c11 := jsReplaceFirst c10 "\x7b\x7bNEARBY_NEIGHBORHOODS\x7d\x7d" nearby
  let c12 := jsReplaceFirst c11 "\x7b\x7bFAQ_GOOD_AREA\x7d\x7d" faqGoodArea
  let c13 := jsReplaceFirst c12 "\x7b\x7bFAQ_DISTANCE\x7d\x7d" faqDistance
  let c14 := jsReplaceFirst c13 "\x7b\x7bFAQ_PRICE\x7d\x7d" faqPrice
  wrapInLayout T.layout c14 ("Hotels in " ++ hood.name ++ ", Athens")
    ("Find the best hotels in " ++ hood.name ++ ", Athens. " ++ hood.tagline ++
     ". Compare " ++ toString hoodData.hotelCount ++ " hotels from €" ++
     toString hood.avgPrice ++ "/night.")
    ("https://hotelsofathens.com/athens-hotels/" ++ hood.id)

/-! ## generate.js: hotel pages -/

/-- `Math.round(hotel.pricePerNight * 0.8)` (generate.js line 231); the JS
float literal `0.8` is modelled by the exact rational 4/5 (for the integer
prices of this data model the double computation rounds identically). -/
def hotelPriceMin (p : ℕ) : ℤ := jsRound ((p : ℚ) * (4/5))

/-- `Math.round(hotel.pricePerNight * 1.5)` (generate.js line 232); `1.5` is
exactly representable, so `(3/2 : ℚ)` is the exact JS product. -/
def hotelPriceMax (p : ℕ) : ℤ := jsRound ((p : ℚ) * (3/2))

/-- The luxury badge added on hotel detail pages (generate.js line 210). -/
def luxuryBadge : String := "<span class=\"hotel-badge\">👑 Luxury</span>"

/-- The badge list built by `generateHotelPages` (generate.js lines 207-210). -/
def hotelPageBadges (h : Hotel) : List String :=
  (if h.hasAcropolisView
    then ["<span class=\"hotel-badge\">🏛️ Acropolis View</span>"] else []) ++
  (if h.hasRooftopBar
    then ["<span class=\"hotel-badge\">🍸 Rooftop Bar</span>"] else []) ++
  (if 5 ≤ h.starRating then [luxuryBadge] else [])

/-- The "similar hotels" selection (generate.js lines 217-219): same
neighborhood, different id, `slice(0, 3)`. -/
def similarHotels (hotels : List Hotel) (h : Hotel) : List Hotel :=
  (hotels.filter (fun x => x.neighborhood == h.neighborhood && x.id != h.id)).take 3

/-- One iteration of `generateHotelPages` (generate.js line 191), returning
the HTML written to `hotel/<slug>.html`. -/
def generateHotelPage (T : Templates) (hotels : List Hotel) (h : Hotel) : String :=
  let amenitiesHtml := String.join ((h.amenities.getD []).map
    (fun a => "<span class=\"amenity\">" ++ a ++ "</span>"))
  let prosHtml := String.join ((h.pros.getD ["Great location", "Good value"]).map
    (fun p => "<li>" ++ p ++ "</li>"))
  let consHtml := String.join ((h.cons.getD ["Book early"]).map
    (fun c => "<li>" ++ c ++ "</li>"))
  let bestForTags := String.join ((h.bestFor.getD ["Travelers"]).map
    (fun b => "<span class=\"best-for-tag\">" ++ b ++ "</span>"))
  let similar := String.join ((similarHotels hotels h).map generateHotelCard)
  let c1 := jsReplaceAll T.hotel "\x7b\x7bNAME\x7d\x7d" h.name
  let c2 := jsReplaceAll c1 "\x7b\x7bNEIGHBORHOOD_ID\x7d\x7d" h.neighborhood
  let c3 := jsReplaceAll c2 "\x7b\x7bNEIGHBORHOOD_NAME\x7d\x7d" (jsOrStr h.neighborhoodName h.neighborhood)
  let c4 := jsReplaceFirst c3 "\x7b\x7bSTARS\x7d\x7d" (generateStars h.starRating)
  let c5 := jsReplaceFirst c4 "\x7b\x7bSTAR_RATING\x7d\x7d" (toString h.starRating)
  let c6 := jsReplaceFirst c5 "\x7b\x7bBADGES\x7d\x7d" (String.join (hotelPageBadges h))
  let c7 := jsReplaceAll c6 "\x7b\x7bPRICE\x7d\x7d" (toString h.pricePerNight)
  let c8 := jsReplaceFirst c7 "\x7b\x7bPRICE_MIN\x7d\x7d" (toString (hotelPriceMin h.pricePerNight))
  let c9 := jsReplaceFirst c8 "\x7b\x7bPRICE_MAX\x7d\x7d" (toString (hotelPriceMax h.pricePerNight))
  let c10 := jsReplaceFirst c9 "\x7b\x7bOVERVIEW\x7d\x7d"
    (jsOrStr h.overview
      (h.name ++ " is a " ++ toString h.starRating ++ "-star hotel in " ++
       jsStrOpt h.neighborhoodName ++ ", Athens."))
  let c11 := jsReplaceFirst c10 "\x7b\x7bAMENITIES\x7d\x7d" amenitiesHtml
  let c12 := jsReplaceFirst c11 "\x7b\x7bPROS\x7d\x7d" prosHtml
  let c13 := jsReplaceFirst c12 "\x7b\x7bCONS\x7d\x7d" consHtml
  let c14 := jsReplaceFirst c13 "\x7b\x7bLOCATION_DESC\x7d\x7d"
    (h.distanceToAcropolis ++ " walk to the Acropolis.")
  let c15 := jsReplaceFirst c14 "\x7b\x7bDISTANCE_ACROPOLIS\x7d\x7d" h.distanceToAcropolis
  let c16 := jsReplaceFirst c15 "\x7b\x7bDISTANCE_METRO\x7d\x7d" "5-10 min"
  let c17 := jsReplaceFirst c16 "\x7b\x7bHAS_VIEW\x7d\x7d" (if h.hasAcropolisView then "Yes ✓" else "No")
  let c18 := jsReplaceFirst c17 "\x7b\x7bHAS_ROOFTOP\x7d\x7d" (if h.hasRooftopBar then "Yes ✓" else "No")
  let c19 := jsReplaceFirst c18 "\x7b\x7bBEST_FOR_TAGS\x7d\x7d" bestForTags
  let c20 := jsReplaceFirst c19 "\x7b\x7bSIMILAR_HOTELS\x7d\x7d" similar
  let c21 := jsReplaceFirst c20 "\x7b\x7bBOOKING_URL\x7d\x7d"
    ("https://www.booking.com/searchresults.html?ss=" ++
     encodeURIComponent (h.name ++ " Athens"))
  wrapInLayout T.layout c21 h.name
    (h.name ++ " - " ++ toString h.starRating ++ "-star hotel in " ++
     jsStrOpt h.neighborhoodName ++ ", Athens. From €" ++ toString h.pricePerNight ++
     "/night. " ++ (if h.hasAcropolisView then "Acropolis views available." else ""))
    ("https://hotelsofathens.com/hotel/" ++ h.slug)

/-! ## generate.js: contact / thank-you / guides -/

/-- `generateContactPage` (generate.js line 258); the `FORMSPREE_ID`
environment variable is passed in explicitly (`undefined` and the empty
string fall back to "xnjzokwn"). -/
def generateContactPage (T : Templates) (formspreeEnv : Option String) : String :=
  let formspreeId := jsOrStr formspreeEnv "xnjzokwn"
  let content := jsReplaceFirst T.contact "\x7b\x7bFORMSPREE_ID\x7d\x7d" formspreeId
  wrapInLayout T.layout content "Contact Us"
    "Questions about Athens hotels? Contact the Hotels of Athens team for personalized recommendations."
    "https://hotelsofathens.com/contact"

/-- `generateThankYouPage` (generate.js line 276). -/
def generateThankYouPage (T : Templates) : String :=
  wrapInLayout T.layout T.thankYou "Message Sent"
    "Thank you for contacting Hotels of Athens."
    "https://hotelsofathens.com/thank-you"

/-- Budget guide selection (generate.js lines 294-296): price < 80, sorted
ascending by price (JS `Array.prototype.sort` is stable, as is `mergeSort`). -/
def budgetGuideSelection (hotels : List Hotel) : List Hotel :=
  (hotels.filter (fun h => h.pricePerNight < 80)).mergeSort
    (fun a b => a.pricePerNight ≤ b.pricePerNight)

/-- Luxury guide selection (generate.js lines 323-325): price ≥ 200, sorted
descending by price. -/
def luxuryGuideSelection (hotels : List Hotel) : List Hotel :=
  (hotels.filter (fun h => 200 ≤ h.pricePerNight)).mergeSort
    (fun a b => b.pricePerNight ≤ a.pricePerNight)

/-- Rooftop guide selection (generate.js lines 352-354): has a rooftop bar,
sorted descending by `rooftopRating || 0`. -/
def rooftopGuideSelection (hotels : List Hotel) : List Hotel :=
  (hotels.filter (fun h => h.hasRooftopBar)).mergeSort
    (fun a b => rooftopOrZero b.rooftopRating ≤ rooftopOrZero a.rooftopRating)

/-- The budget guide page (generate.js lines 300-320). -/
def budgetGuidePage (T : Templates) (hotels : List Hotel) : String :=
  let budgetHotels := String.join ((budgetGuideSelection hotels).map generateHotelCard)
  let budgetContent :=
    "\n    <section class=\"guide-hero\">\n      <div class=\"container\">\n        <h1>Budget Hotels in Athens</h1>\n        <p>Great stays under €80/night</p>\n      </div>\n    </section>\n    <section class=\"section\">\n      <div class=\"container\">\n        <div class=\"guide-intro\">\n          <p>Athens offers excellent budget accommodation without sacrificing location or comfort. These hotels prove you don\x27t need to spend a fortune to enjoy the Greek capital.</p>\n        </div>\n        <div class=\"hotels-grid\">" ++
    budgetHotels ++ "</div>\n      </div>\n    </section>\n  "
  wrapInLayout T.layout budgetContent "Budget Hotels in Athens"
    "Find affordable Athens hotels under €80/night. Great locations, clean rooms, excellent value."
    "https://hotelsofathens.com/budget-hotels-athens"

/-- The luxury guide page (generate.js lines 329-349). -/
def luxuryGuidePage (T : Templates) (hotels : List Hotel) : String :=
  let luxuryHotels := String.join ((luxuryGuideSelection hotels).map generateHotelCard)
  let luxuryContent :=
    "\n    <section class=\"guide-hero\">\n      <div class=\"container\">\n        <h1>Luxury Hotels in Athens</h1>\n        <p>The finest 5-star experiences</p>\n      </div>\n    </section>\n    <section class=\"section\">\n      <div class=\"container\">\n        <div class=\"guide-intro\">\n          <p>Experience Athens in style at these exceptional luxury hotels. World-class service, stunning views, and unforgettable experiences await.</p>\n        </div>\n        <div class=\"hotels-grid\">" ++
    luxuryHotels ++ "</div>\n      </div>\n    </section>\n  "
  wrapInLayout T.layout luxuryContent "Luxury Hotels in Athens"
    "Discover Athens\x27 finest 5-star hotels. Rooftop pools, Acropolis views, world-class service."
    "https://hotelsofathens.com/luxury-hotels-athens"

/-- The rooftop guide page (generate.js lines 358-378). -/
def rooftopGuidePage (T : Templates) (hotels : List Hotel) : String :=
  let rooftopHotels := String.join ((rooftopGuideSelection hotels).map generateHotelCard)
  let rooftopContent :=
    "\n    <section class=\"guide-hero\">\n      <div class=\"container\">\n        <h1>Best Rooftop Bar Hotels in Athens</h1>\n        <p>Sunset cocktails with Acropolis views</p>\n      </div>\n    </section>\n    <section class=\"section\">\n      <div class=\"container\">\n        <div class=\"guide-intro\">\n          <p>Nothing beats watching the sunset over the Acropolis with a cocktail in hand. These hotels offer the best rooftop experiences in Athens.</p>\n        </div>\n        <div class=\"hotels-grid\">" ++
    rooftopHotels ++ "</div>\n      </div>\n    </section>\n  "
  wrapInLayout T.layout rooftopContent "Best Rooftop Bar Hotels in Athens"
    "Hotels with the best rooftop bars in Athens. Acropolis views, sunset cocktails, unforgettable evenings."
    "https://hotelsofathens.com/best-rooftop-bars-athens"

/-! ## generate.js: sitemap, robots, headers, redirects -/

structure UrlEntry where
  loc : String
  priority : String
  deriving Repr, DecidableEq

/-- The `urls` array of `generateSitemap` (generate.js lines 385-399). -/
def sitemapUrls (N : List Neighborhood) (hotels : List Hotel) : List UrlEntry :=
  [⟨"https://hotelsofathens.com/", "1.0"⟩,
   ⟨"https://hotelsofathens.com/contact", "0.5"⟩,
   ⟨"https://hotelsofathens.com/budget-hotels-athens", "0.8"⟩,
   ⟨"https://hotelsofathens.com/luxury-hotels-athens", "0.8"⟩,
   ⟨"https://hotelsofathens.com/best-rooftop-bars-athens", "0.8"⟩] ++
  N.map (fun n => ⟨"https://hotelsofathens.com/athens-hotels/" ++ n.id, "0.9"⟩) ++
  hotels.map (fun h => ⟨"https://hotelsofathens.com/hotel/" ++ h.slug, "0.7"⟩)

/-- One `<url>` block (generate.js lines 403-407); `dateStr` is the run's
`new Date().toISOString().split('T')[0]`. -/
def sitemapUrlXml (dateStr : String) (u : UrlEntry) : String :=
  "  <url>\n    <loc>" ++ u.loc ++ "</loc>\n    " ++
  ("<lastmod>" ++ dateStr ++ "</lastmod>") ++
  ("\n    <priority>" ++ u.priority ++ "</priority>\n  </url>")

/-- `generateSitemap` (generate.js line 382), returning `sitemap.xml`. -/
def generateSitemap (dateStr : String) (N : List Neighborhood) (hotels : List Hotel) : String :=
  "<?xml version=\"1.0\" encoding=\"UTF-8\"?>\n<urlset xmlns=\"http://www.sitemaps.org/schemas/sitemap/0.9\">\n" ++
  String.intercalate "\n" ((sitemapUrls N hotels).map (sitemapUrlXml dateStr)) ++
  "\n</urlset>"

/-- `generateRobots` output (generate.js line 414). -/
def robotsTxt : String :=
  "User-agent: *\nAllow: /\n\nSitemap: https://hotelsofathens.com/sitemap.xml"

/-- `generateHeaders` output (generate.js line 426). -/
def headersFile : String :=
  "/*\n  X-Frame-Options: DENY\n  X-Content-Type-Options: nosniff\n  Referrer-Policy: strict-origin-when-cross-origin\n\n/images/*\n  Cache-Control: public, max-age=31536000\n\n/css/*\n  Cache-Control: public, max-age=31536000"

/-- `generateRedirects` output (generate.js line 444). -/
def redirectsFile : String :=
  "/index.html  /  301\n/area/*  /athens-hotels/:splat  301"

/-! ## generate.js: the assembled run (`main`, line 454) -/

/-- All files written by one run of `generate.js`, in write order, as
(path under `dist/`, content) pairs. Inputs: the templates, the
neighborhoods catalog, `all-hotels.json`, the per-neighborhood data files
(`hoodFile id` is `data/hotels/<id>.json`), the `FORMSPREE_ID` environment
variable, and the run's current date string. -/
def siteOutputs (T : Templates) (N : List Neighborhood) (A : AllHotelsData)
    (hoodFile : String → HoodFile) (formspreeEnv : Option String)
    (dateStr : String) : List (String × String) :=
  [("index.html", generateHomepage T N A)] ++
  N.map (fun hood =>
    ("athens-hotels/" ++ hood.id ++ ".html",
     generateNeighborhoodPage T N hood (hoodFile hood.id))) ++
  A.hotels.map (fun h =>
    ("hotel/" ++ h.slug ++ ".html", generateHotelPage T A.hotels h)) ++
  [("contact.html", generateContactPage T formspreeEnv),
   ("thank-you.html", generateThankYouPage T),
   ("budget-hotels-athens.html", budgetGuidePage T A.hotels),
   ("luxury-hotels-athens.html", luxuryGuidePage T A.hotels),
   ("best-rooftop-bars-athens.html", rooftopGuidePage T A.hotels),
   ("sitemap.xml", generateSitemap dateStr N A.hotels),
   ("robots.txt", robotsTxt),
   ("_headers", headersFile),
   ("_redirects", redirectsFile)]

/-! ## Filesystem model for the hotel-page writes (C2) -/

/-- `fs.writeFileSync`: overwrite whatever was at `path`. -/
def writeFile (fs : String → Option String) (path content : String) :
    String → Option String :=
  fun q => if q = path then some content else fs q

/-- The write loop of `generateHotelPages` (generate.js lines 194-254): the
output filename is keyed solely on `hotel.slug`. -/
def generateHotelPagesFS (T : Templates) (hotels : List Hotel)
    (fs₀ : String → Option String) : String → Option String :=
  hotels.foldl
    (fun fs h => writeFile fs ("hotel/" ++ h.slug ++ ".html") (generateHotelPage T hotels h))
    fs₀

/-! ## fetch-hotels.js: aggregate statistics (`main`, lines 218-227) -/

/-- Sum of all nightly prices. -/
def sumPrices (hotels : List Hotel) : ℕ :=
  (hotels.map (fun h => h.pricePerNight)).sum

/-- `avgPrice` (fetch-hotels.js line 220):
`Math.round(prices.reduce((a,b) => a+b, 0) / prices.length)`. -/
def avgPriceOf (hotels : List Hotel) : ℤ :=
  jsRound ((sumPrices hotels : ℚ) / (hotels.length : ℚ))

/-- `priceStats` (fetch-hotels.js lines 222-227): the four bucket counts. -/
def priceStatsOf (hotels : List Hotel) : PriceStats where
  budgetCount := (hotels.filter (fun h => h.pricePerNight < 80)).length
  midRangeCount := (hotels.filter (fun h => 80 ≤ h.pricePerNight ∧ h.pricePerNight < 150)).length
  upscaleCount := (hotels.filter (fun h => 150 ≤ h.pricePerNight ∧ h.pricePerNight < 250)).length
  luxuryCount := (hotels.filter (fun h => 250 ≤ h.pricePerNight)).length

/-! ## Seed data relevant to the slug collision (fetch-hotels.js) -/

/-- The "Herodion Hotel" seed record of the `plaka` list
(fetch-hotels.js line 125), after the per-neighborhood processing of
`main` (lines 189-198) attaches id/slug/neighborhood fields. -/
def herodionPlaka : Hotel where
  id := "herodion-hotel-plaka"
  slug := generateSlug "Herodion Hotel"
  name := "Herodion Hotel"
  starRating := 4
  pricePerNight := 165
  neighborhood := "plaka"
  neighborhoodName := some "Plaka"
  distanceToAcropolis := "2 min"
  hasAcropolisView := true
  hasRooftopBar := true
  rooftopRating := some 4
  amenities := some ["Restaurant", "Bar", "Garden", "WiFi"]
  pros := some ["Steps from Acropolis", "Lovely garden", "Family-friendly"]
  cons := some ["Dated decor in some rooms"]
  bestFor := some ["Families", "Couples", "History buffs"]
  overview := some "Elegant hotel at the foot of the Acropolis with beautiful garden and rooftop restaurant."

/-- The "Herodion Hotel" seed record of the `koukaki` list
(fetch-hotels.js line 155), after the same processing. -/
def herodionKoukaki : Hotel where
  id := "herodion-hotel-koukaki"
  slug := generateSlug "Herodion Hotel"
  name := "Herodion Hotel"
  starRating := 4
  pricePerNight := 155
  neighborhood := "koukaki"
  neighborhoodName := some "Koukaki"
  distanceToAcropolis := "5 min"
  hasAcropolisView := true
  hasRooftopBar := true
  rooftopRating := some 4
  amenities := some ["Restaurant", "Bar", "Garden", "WiFi"]
  pros := some ["Quiet location", "Garden setting", "Near Acropolis"]
  cons := some ["Uphill walk to center"]
  bestFor := some ["Families", "Quiet", "Acropolis access"]
  overview := some "Elegant hotel at the south slope of the Acropolis. Beautiful garden and easy access to sites."

/-- A minimal concrete template set used to exhibit concrete page contents. -/
def sampleTemplates : Templates where
  layout := "\x7b\x7bCONTENT\x7d\x7d"
  home := "\x7b\x7bTOTAL_HOTELS\x7d\x7d"
  neighborhood := "\x7b\x7bNAME\x7d\x7d"
  hotel := "\x7b\x7bNAME\x7d\x7d €\x7b\x7bPRICE\x7d\x7d"
  contact := "\x7b\x7bFORMSPREE_ID\x7d\x7d"
  thankYou := "Thanks"

/-! ## Shared characterization lemmas -/

/-- Characterization of `getPriceTier`: each label holds exactly on its
half-open band. -/
theorem getPriceTier_iff (price : ℤ) :
    (getPriceTier price = "budget" ↔ price < 80) ∧
    (getPriceTier price = "mid" ↔ 80 ≤ price ∧ price < 150) ∧
    (getPriceTier price = "upscale" ↔ 150 ≤ price ∧ price < 250) ∧
    (getPriceTier price = "luxury" ↔ 250 ≤ price) := by
  unfold getPriceTier
  split
  · refine ⟨?_, ?_, ?_, ?_⟩ <;> simp_all <;> omega
  · split
    · refine ⟨?_, ?_, ?_, ?_⟩ <;> simp_all <;> omega
    · split
      · refine ⟨?_, ?_, ?_, ?_⟩ <;> simp_all <;> omega
      · refine ⟨?_, ?_, ?_, ?_⟩ <;> simp_all <;> omega

/-- `getPriceTier` only ever produces one of the four labels. -/
theorem getPriceTier_mem (price : ℤ) :
    getPriceTier price = "budget" ∨ getPriceTier price = "mid" ∨
    getPriceTier price = "upscale" ∨ getPriceTier price = "luxury" := by
  unfold getPriceTier
  split
  · exact Or.inl rfl
  · split
    · exact Or.inr (Or.inl rfl)
    · split
      · exact Or.inr (Or.inr (Or.inl rfl))
      · exact Or.inr (Or.inr (Or.inr rfl))

/-- `rooftopAtLeast4` holds exactly when the rating is present and ≥ 4. -/
theorem rooftopAtLeast4_iff (r : Option ℕ) :
    rooftopAtLeast4 r = true ↔ ∃ v, r = some v ∧ 4 ≤ v := by
  cases r <;> simp [rooftopAtLeast4]

/-! ## Theorems: C1 and C7 -/

/-- **C1**: For every integer price, `getPriceTier price` returns exactly one
of the four labels "budget"/"mid"/"upscale"/"luxury", with half-open
boundaries at 80, 150, 250 (a tie at a boundary belongs to the higher tier):
the label is "budget" iff price < 80, "mid" iff 80 ≤ price < 150, "upscale"
iff 150 ≤ price < 250, "luxury" iff 250 ≤ price; in particular
79 ↦ budget, 80 ↦ mid, 149 ↦ mid, 150 ↦ upscale, 249 ↦ upscale,
250 ↦ luxury. -/
theorem getPriceTier_four_tiers :
    (∀ price : ℤ,
      (getPriceTier price = "budget" ∨ getPriceTier price = "mid" ∨
       getPriceTier price = "upscale" ∨ getPriceTier price = "luxury") ∧
      (getPriceTier price = "budget" ↔ price < 80) ∧
      (getPriceTier price = "mid" ↔ 80 ≤ price ∧ price < 150) ∧
      (getPriceTier price = "upscale" ↔ 150 ≤ price ∧ price < 250) ∧
      (getPriceTier price = "luxury" ↔ 250 ≤ price)) ∧
    getPriceTier 79 = "budget" ∧ getPriceTier 80 = "mid" ∧
    getPriceTier 149 = "mid" ∧ getPriceTier 150 = "upscale" ∧
    getPriceTier 249 = "upscale" ∧ getPriceTier 250 = "luxury" := by
  refine ⟨fun price => ⟨getPriceTier_mem price, getPriceTier_iff price⟩,
    by decide, by decide, by decide, by decide, by decide, by decide⟩

/-- **C7**: for `0 ≤ rating ≤ 5`, `generateStars rating` has total length 5,
its first `rating` characters are the filled glyph '★', and its remaining
`5 - rating` characters are the empty glyph '☆'. -/
theorem generateStars_spec (rating : ℕ) (h : rating ≤ 5) :
    (generateStars rating).length = 5 ∧
    (generateStars rating).data.take rating = List.replicate rating '★' ∧
    (generateStars rating).data.drop rating = List.replicate (5 - rating) '☆' := by
  refine ⟨?_, ?_, ?_⟩
  · simp [generateStars]
    omega
  · simp [generateStars, List.take_append_of_le_length, List.take_replicate]
  · simp [generateStars, List.drop_append_of_le_length, List.drop_replicate]

/-- Witness for C7 at rating = 3. -/
theorem generateStars_spec_witness :
    (generateStars 3).length = 5 ∧
    (generateStars 3).data.take 3 = List.replicate 3 '★' ∧
    (generateStars 3).data.drop 3 = List.replicate 2 '☆' :=
  generateStars_spec 3 (by decide)

/-! ## Theorem: C3 (homepage selections) -/

/-- **C3**: for every hotel collection, the homepage landmark-view section
holds at most 6 hotels, all with `hasAcropolisView`, and the rooftop section
at most 6 hotels, all with a rooftop bar and rooftop rating ≥ 4; both
selections are the first such hotels in Data Store iteration order (the
filtered list truncated in place, no re-sorting). -/
theorem homepage_selections_spec (hotels : List Hotel) :
    (acropolisViewSelection hotels).length ≤ 6 ∧
    (∀ h ∈ acropolisViewSelection hotels, h.hasAcropolisView = true) ∧
    (∃ rest, hotels.filter (fun h => h.hasAcropolisView) =
      acropolisViewSelection hotels ++ rest) ∧
    (rooftopSelection hotels).length ≤ 6 ∧
    (∀ h ∈ rooftopSelection hotels,
      h.hasRooftopBar = true ∧ ∃ v, h.rooftopRating = some v ∧ 4 ≤ v) ∧
    (∃ rest, hotels.filter (fun h => h.hasRooftopBar && rooftopAtLeast4 h.rooftopRating) =
      rooftopSelection hotels ++ rest) := by
  refine ⟨?_, ?_, ⟨_, (List.take_append_drop 6 _).symm⟩, ?_, ?_,
    ⟨_, (List.take_append_drop 6 _).symm⟩⟩
  · simpa [acropolisViewSelection] using List.length_take_le 6 _
  · intro h hmem
    exact List.of_mem_filter (List.mem_of_mem_take hmem)
  · simpa [rooftopSelection] using List.length_take_le 6 _
  · intro h hmem
    have hp := List.of_mem_filter (List.mem_of_mem_take hmem)
    rw [Bool.and_eq_true] at hp
    exact ⟨hp.1, (rooftopAtLeast4_iff _).mp hp.2⟩

/-! ## Theorem: C4 (guide pages) -/

/-- **C4**: the budget guide lists exactly the hotels priced under 80,
sorted by ascending price; the luxury guide exactly those priced ≥ 200,
sorted by descending price; the rooftop guide exactly those with a rooftop
bar, sorted by descending rooftop rating with a missing rating treated
as 0. -/
theorem guide_selections_spec (hotels : List Hotel) :
    List.Perm (budgetGuideSelection hotels)
      (hotels.filter (fun h => h.pricePerNight < 80)) ∧
    (budgetGuideSelection hotels).Pairwise
      (fun a b => a.pricePerNight ≤ b.pricePerNight) ∧
    List.Perm (luxuryGuideSelection hotels)
      (hotels.filter (fun h => 200 ≤ h.pricePerNight)) ∧
    (luxuryGuideSelection hotels).Pairwise
      (fun a b => b.pricePerNight ≤ a.pricePerNight) ∧
    List.Perm (rooftopGuideSelection hotels)
      (hotels.filter (fun h => h.hasRooftopBar)) ∧
    (rooftopGuideSelection hotels).Pairwise
      (fun a b => rooftopOrZero b.rooftopRating ≤ rooftopOrZero a.rooftopRating) := by
  refine ⟨List.mergeSort_perm _ _, ?_, List.mergeSort_perm _ _, ?_,
    List.mergeSort_perm _ _, ?_⟩
  · have hs := @List.sorted_mergeSort Hotel
      (fun a b : Hotel => decide (a.pricePerNight ≤ b.pricePerNight))
      (by intro a b c hab hbc; simp only [decide_eq_true_eq] at *; omega)
      (by intro a b; simp only [Bool.or_eq_true, decide_eq_true_eq]; omega)
      (hotels.filter (fun h => h.pricePerNight < 80))
    exact hs.imp (fun hab => by simpa using hab)
  · have hs := @List.sorted_mergeSort Hotel
      (fun a b : Hotel => decide (b.pricePerNight ≤ a.pricePerNight))
      (by intro a b c hab hbc; simp only [decide_eq_true_eq] at *; omega)
      (by intro a b; simp only [Bool.or_eq_true, decide_eq_true_eq]; omega)
      (hotels.filter (fun h => 200 ≤ h.pricePerNight))
    exact hs.imp (fun hab => by simpa using hab)
  · have hs := @List.sorted_mergeSort Hotel
      (fun a b : Hotel =>
        decide (rooftopOrZero b.rooftopRating ≤ rooftopOrZero a.rooftopRating))
      (by intro a b c hab hbc; simp only [decide_eq_true_eq] at *; omega)
      (by intro a b; simp only [Bool.or_eq_true, decide_eq_true_eq]; omega)
      (hotels.filter (fun h => h.hasRooftopBar))
    exact hs.imp (fun hab => by simpa using hab)

/-! ## Theorem: C6 (hotel-page price range) -/

/-- Closed form of `hotelPriceMin` in integer division. -/
theorem hotelPriceMin_eq (p : ℕ) :
    hotelPriceMin p = (((8 * p + 5) / 10 : ℕ) : ℤ) := by
  unfold hotelPriceMin
  rw [jsRound_eq]
  rw [show ((p : ℚ) * (4/5) + 1/2) =
      (((8 * p + 5 : ℕ) : ℚ) / ((10 : ℕ) : ℚ)) by push_cast; ring]
  exact_mod_cast Rat.floor_natCast_div_natCast _ _

/-- Closed form of `hotelPriceMax` in integer division. -/
theorem hotelPriceMax_eq (p : ℕ) :
    hotelPriceMax p = (((3 * p + 1) / 2 : ℕ) : ℤ) := by
  unfold hotelPriceMax
  rw [jsRound_eq]
  rw [show ((p : ℚ) * (3/2) + 1/2) =
      (((3 * p + 1 : ℕ) : ℚ) / ((2 : ℕ) : ℚ)) by push_cast; ring]
  exact_mod_cast Rat.floor_natCast_div_natCast _ _

/-- **C6**: the hotel page's displayed price range is
`[round(0.8 · price), round(1.5 · price)]` with round-to-nearest (JS
`Math.round`), equivalently `[(8p+5)/10, (3p+1)/2]` in integer division;
a hotel priced at 100 displays the range [80, 150]. -/
theorem hotel_price_range_spec (h : Hotel) :
    hotelPriceMin h.pricePerNight = jsRound ((h.pricePerNight : ℚ) * (4/5)) ∧
    hotelPriceMax h.pricePerNight = jsRound ((h.pricePerNight : ℚ) * (3/2)) ∧
    hotelPriceMin h.pricePerNight = ⌊(h.pricePerNight : ℚ) * (4/5) + 1/2⌋ ∧
    hotelPriceMax h.pricePerNight = ⌊(h.pricePerNight : ℚ) * (3/2) + 1/2⌋ ∧
    hotelPriceMin h.pricePerNight = (((8 * h.pricePerNight + 5) / 10 : ℕ) : ℤ) ∧
    hotelPriceMax h.pricePerNight = (((3 * h.pricePerNight + 1) / 2 : ℕ) : ℤ) ∧
    hotelPriceMin 100 = 80 ∧ hotelPriceMax 100 = 150 := by
  refine ⟨rfl, rfl, jsRound_eq _, jsRound_eq _, hotelPriceMin_eq _, hotelPriceMax_eq _, ?_, ?_⟩
  · rw [hotelPriceMin_eq]; norm_num
  · rw [hotelPriceMax_eq]; norm_num

/-! ## Theorem: C5 (aggregate index) -/

/-- The four bucket filters of `priceStats` partition the hotel list. -/
theorem priceStats_partition (hotels : List Hotel) :
    (priceStatsOf hotels).budgetCount + (priceStatsOf hotels).midRangeCount +
    (priceStatsOf hotels).upscaleCount + (priceStatsOf hotels).luxuryCount =
    hotels.length := by
  simp only [priceStatsOf, ← List.countP_eq_length_filter]
  induction hotels with
  | nil => rfl
  | cons h t ih =>
    simp only [List.countP_cons, List.length_cons]
    split_ifs <;> simp only [decide_eq_true_eq] at * <;> omega

/-- Each `priceStats` bucket counts exactly the hotels whose `getPriceTier`
label is the corresponding tier. -/
theorem priceStats_matches_tiers (hotels : List Hotel) :
    (priceStatsOf hotels).budgetCount =
      (hotels.filter (fun h => getPriceTier (h.pricePerNight : ℤ) = "budget")).length ∧
    (priceStatsOf hotels).midRangeCount =
      (hotels.filter (fun h => getPriceTier (h.pricePerNight : ℤ) = "mid")).length ∧
    (priceStatsOf hotels).upscaleCount =
      (hotels.filter (fun h => getPriceTier (h.pricePerNight : ℤ) = "upscale")).length ∧
    (priceStatsOf hotels).luxuryCount =
      (hotels.filter (fun h => getPriceTier (h.pricePerNight : ℤ) = "luxury")).length := by
  refine ⟨?_, ?_, ?_, ?_⟩
  · simp only [priceStatsOf]
    congr 1
    refine List.filter_congr (fun h _ => ?_)
    rw [decide_eq_decide]
    have hi := getPriceTier_iff (h.pricePerNight : ℤ)
    exact ⟨fun hp => (hi.1).mpr (by exact_mod_cast hp),
      fun hp => by exact_mod_cast (hi.1).mp hp⟩
  · simp only [priceStatsOf]
    congr 1
    refine List.filter_congr (fun h _ => ?_)
    rw [decide_eq_decide]
    have hi := getPriceTier_iff (h.pricePerNight : ℤ)
    refine ⟨fun hp => (hi.2.1).mpr ⟨by exact_mod_cast hp.1, by exact_mod_cast hp.2⟩,
      fun hp => ⟨?_, ?_⟩⟩
    · exact_mod_cast ((hi.2.1).mp hp).1
    · exact_mod_cast ((hi.2.1).mp hp).2
  · simp only [priceStatsOf]
    congr 1
    refine List.filter_congr (fun h _ => ?_)
    rw [decide_eq_decide]
    have hi := getPriceTier_iff (h.pricePerNight : ℤ)
    refine ⟨fun hp => (hi.2.2.1).mpr ⟨by exact_mod_cast hp.1, by exact_mod_cast hp.2⟩,
      fun hp => ⟨?_, ?_⟩⟩
    · exact_mod_cast ((hi.2.2.1).mp hp).1
    · exact_mod_cast ((hi.2.2.1).mp hp).2
  · simp only [priceStatsOf]
    congr 1
    refine List.filter_congr (fun h _ => ?_)
    rw [decide_eq_decide]
    have hi := getPriceTier_iff (h.pricePerNight : ℤ)
    exact ⟨fun hp => (hi.2.2.2).mpr (by exact_mod_cast hp),
      fun hp => by exact_mod_cast (hi.2.2.2).mp hp⟩

/-- **C5**: for every non-empty hotel collection, `avgPrice` is the
arithmetic mean of the prices rounded to the nearest integer (JS
`Math.round`, equivalently `(2·sum + n) / (2·n)` in integer division), the
four price-tier bucket counts are the partition counts at thresholds
80/150/250 (they agree with `getPriceTier`, luxury open-ended above), and
the four counts sum exactly to the total hotel count. -/
theorem aggregate_index_spec (hotels : List Hotel) (hne : hotels ≠ []) :
    avgPriceOf hotels = jsRound ((sumPrices hotels : ℚ) / (hotels.length : ℚ)) ∧
    avgPriceOf hotels =
      (((2 * sumPrices hotels + hotels.length) / (2 * hotels.length) : ℕ) : ℤ) ∧
    (priceStatsOf hotels).budgetCount + (priceStatsOf hotels).midRangeCount +
      (priceStatsOf hotels).upscaleCount + (priceStatsOf hotels).luxuryCount =
      hotels.length ∧
    (priceStatsOf hotels).budgetCount =
      (hotels.filter (fun h => getPriceTier (h.pricePerNight : ℤ) = "budget")).length ∧
    (priceStatsOf hotels).midRangeCount =
      (hotels.filter (fun h => getPriceTier (h.pricePerNight : ℤ) = "mid")).length ∧
    (priceStatsOf hotels).upscaleCount =
      (hotels.filter (fun h => getPriceTier (h.pricePerNight : ℤ) = "upscale")).length ∧
    (priceStatsOf hotels).luxuryCount =
      (hotels.filter (fun h => getPriceTier (h.pricePerNight : ℤ) = "luxury")).length := by
  have hn : (hotels.length : ℚ) ≠ 0 := by
    have : hotels.length ≠ 0 := fun hz => hne (List.length_eq_zero.mp hz)
    exact_mod_cast this
  refine ⟨rfl, ?_, priceStats_partition hotels, (priceStats_matches_tiers hotels).1,
    (priceStats_matches_tiers hotels).2.1, (priceStats_matches_tiers hotels).2.2.1,
    (priceStats_matches_tiers hotels).2.2.2⟩
  unfold avgPriceOf
  rw [jsRound_eq]
  rw [show ((sumPrices hotels : ℚ) / (hotels.length : ℚ) + 1/2) =
      (((2 * sumPrices hotels + hotels.length : ℕ) : ℚ) /
       ((2 * hotels.length : ℕ) : ℚ)) by push_cast; field_simp; ring]
  exact_mod_cast Rat.floor_natCast_div_natCast _ _

/-- Witness for C5 on the concrete one-element collection
`[herodionPlaka]` (price 165). -/
theorem aggregate_index_spec_witness :
    ([herodionPlaka] ≠ ([] : List Hotel)) ∧
    (avgPriceOf [herodionPlaka] =
      jsRound ((sumPrices [herodionPlaka] : ℚ) / (([herodionPlaka] : List Hotel).length : ℚ)) ∧
    avgPriceOf [herodionPlaka] =
      (((2 * sumPrices [herodionPlaka] + ([herodionPlaka] : List Hotel).length) /
        (2 * ([herodionPlaka] : List Hotel).length) : ℕ) : ℤ) ∧
    (priceStatsOf [herodionPlaka]).budgetCount + (priceStatsOf [herodionPlaka]).midRangeCount +
      (priceStatsOf [herodionPlaka]).upscaleCount + (priceStatsOf [herodionPlaka]).luxuryCount =
      ([herodionPlaka] : List Hotel).length ∧
    (priceStatsOf [herodionPlaka]).budgetCount =
      ([herodionPlaka].filter (fun h => getPriceTier (h.pricePerNight : ℤ) = "budget")).length ∧
    (priceStatsOf [herodionPlaka]).midRangeCount =
      ([herodionPlaka].filter (fun h => getPriceTier (h.pricePerNight : ℤ) = "mid")).length ∧
    (priceStatsOf [herodionPlaka]).upscaleCount =
      ([herodionPlaka].filter (fun h => getPriceTier (h.pricePerNight : ℤ) = "upscale")).length ∧
    (priceStatsOf [herodionPlaka]).luxuryCount =
      ([herodionPlaka].filter (fun h => getPriceTier (h.pricePerNight : ℤ) = "luxury")).length) :=
  ⟨by simp, aggregate_index_spec [herodionPlaka] (by simp)⟩

/-! ## Theorem: C10 (luxury badge) -/

/-- **C10**: a hotel detail page carries the third "👑 Luxury" badge exactly
when the hotel's star rating is at least 5, and the hotel-card fragment used
everywhere else never carries that badge. -/
theorem luxury_badge_spec (h : Hotel) :
    (luxuryBadge ∈ hotelPageBadges h ↔ 5 ≤ h.starRating) ∧
    luxuryBadge ∉ cardBadges h := by
  constructor
  · by_cases hv : h.hasAcropolisView <;> by_cases hr : h.hasRooftopBar <;>
      by_cases hs : 5 ≤ h.starRating <;>
      simp [hotelPageBadges, luxuryBadge, hv, hr, hs]
  · by_cases hv : h.hasAcropolisView <;> by_cases hr : h.hasRooftopBar <;>
      simp [cardBadges, luxuryBadge, hv, hr]

/-! ## Theorem: C2 (slug uniqueness is violated; pages silently overwrite) -/

/-- **C2** (code bug): the hotel-page writer keys the output filename solely
on the slug and the slug is derived solely from the hotel name, so the two
"Herodion Hotel" seed records (plaka and koukaki lists of fetch-hotels.js)
collide on slug "herodion-hotel-athens"; running the hotel-page write loop
over both distinct hotels leaves a single output file holding the
later (koukaki) hotel's page — the plaka page is silently overwritten, with
no rejection. The pages genuinely differ (shown for a concrete template
set), so data is lost. -/
theorem herodion_slug_collision (T : Templates) :
    herodionPlaka.name = "Herodion Hotel" ∧
    herodionKoukaki.name = "Herodion Hotel" ∧
    herodionPlaka ≠ herodionKoukaki ∧
    herodionPlaka.slug = generateSlug herodionPlaka.name ∧
    herodionKoukaki.slug = generateSlug herodionKoukaki.name ∧
    herodionPlaka.slug = "herodion-hotel-athens" ∧
    herodionKoukaki.slug = "herodion-hotel-athens" ∧
    generateHotelPagesFS T [herodionPlaka, herodionKoukaki] (fun _ => none) =
      writeFile (fun _ => none) "hotel/herodion-hotel-athens.html"
        (generateHotelPage T [herodionPlaka, herodionKoukaki] herodionKoukaki) ∧
    generateHotelPagesFS T [herodionPlaka, herodionKoukaki] (fun _ => none)
        "hotel/herodion-hotel-athens.html" =
      some (generateHotelPage T [herodionPlaka, herodionKoukaki] herodionKoukaki) ∧
    generateHotelPage sampleTemplates [herodionPlaka, herodionKoukaki] herodionPlaka ≠
      generateHotelPage sampleTemplates [herodionPlaka, herodionKoukaki] herodionKoukaki := by
  have hslug : "hotel/" ++ herodionPlaka.slug ++ ".html" = "hotel/herodion-hotel-athens.html" := by
    decide
  have hslug2 : "hotel/" ++ herodionKoukaki.slug ++ ".html" = "hotel/herodion-hotel-athens.html" := by
    decide
  have hfold : generateHotelPagesFS T [herodionPlaka, herodionKoukaki] (fun _ => none) =
      writeFile
        (writeFile (fun _ => none) ("hotel/" ++ herodionPlaka.slug ++ ".html")
          (generateHotelPage T [herodionPlaka, herodionKoukaki] herodionPlaka))
        ("hotel/" ++ herodionKoukaki.slug ++ ".html")
        (generateHotelPage T [herodionPlaka, herodionKoukaki] herodionKoukaki) := rfl
  have hover : generateHotelPagesFS T [herodionPlaka, herodionKoukaki] (fun _ => none) =
      writeFile (fun _ => none) "hotel/herodion-hotel-athens.html"
        (generateHotelPage T [herodionPlaka, herodionKoukaki] herodionKoukaki) := by
    rw [hfold, hslug, hslug2]
    funext q
    unfold writeFile
    by_cases hq : q = "hotel/herodion-hotel-athens.html" <;> simp [hq]
  refine ⟨rfl, rfl, by decide, rfl, rfl, by decide, by decide, hover, ?_, by decide⟩
  rw [hover]
  unfold writeFile
  simp

/-! ## Theorem: C8 (two-run determinism, corrected) -/

set_option maxRecDepth 100000 in
/-- Counterexample to C8 as stated: with all inputs (templates, data,
configuration) unchanged, two runs of the pipeline on different calendar
dates do not produce byte-identical outputs — the sitemap embeds the run
date, so the output is not a function of the input data alone. -/
theorem siteOutputs_differ_across_dates :
    siteOutputs sampleTemplates [] ⟨0, 0, ⟨0, 0, 0, 0⟩, []⟩ (fun _ => ⟨0, []⟩) none
        "2024-01-01" ≠
      siteOutputs sampleTemplates [] ⟨0, 0, ⟨0, 0, 0, 0⟩, []⟩ (fun _ => ⟨0, []⟩) none
        "2024-01-02" := by
  intro hEq
  simp only [siteOutputs, List.map_nil, List.append_nil, List.nil_append,
    List.cons_append, List.cons.injEq, Prod.mk.injEq, eq_self_iff_true,
    true_and, and_true] at hEq
  exact absurd hEq (by decide)

/-- **C8** (amended): with templates, data files and configuration fixed,
the outputs of two runs agree on every file except `sitemap.xml`: the two
output lists decompose over identical `pre`/`post` segments around the
sitemap entry (so two runs on the same calendar date, where the sitemap
entries coincide as well, produce byte-identical outputs throughout). -/
theorem siteOutputs_deterministic_modulo_sitemap (T : Templates)
    (N : List Neighborhood) (A : AllHotelsData) (hoodFile : String → HoodFile)
    (formspreeEnv : Option String) (t₁ t₂ : String) :
    ∃ pre post : List (String × String),
      siteOutputs T N A hoodFile formspreeEnv t₁ =
        pre ++ ("sitemap.xml", generateSitemap t₁ N A.hotels) :: post ∧
      siteOutputs T N A hoodFile formspreeEnv t₂ =
        pre ++ ("sitemap.xml", generateSitemap t₂ N A.hotels) :: post := by
  refine ⟨[("index.html", generateHomepage T N A)] ++
    N.map (fun hood =>
      ("athens-hotels/" ++ hood.id ++ ".html",
       generateNeighborhoodPage T N hood (hoodFile hood.id))) ++
    A.hotels.map (fun h =>
      ("hotel/" ++ h.slug ++ ".html", generateHotelPage T A.hotels h)) ++
    [("contact.html", generateContactPage T formspreeEnv),
     ("thank-you.html", generateThankYouPage T),
     ("budget-hotels-athens.html", budgetGuidePage T A.hotels),
     ("luxury-hotels-athens.html", luxuryGuidePage T A.hotels),
     ("best-rooftop-bars-athens.html", rooftopGuidePage T A.hotels)],
    [("robots.txt", robotsTxt), ("_headers", headersFile),
     ("_redirects", redirectsFile)], ?_, ?_⟩ <;>
  · simp only [siteOutputs, List.append_assoc, List.cons_append, List.nil_append]

/-! ## Theorem: C9 (sitemap entries) -/

/-- **C9**: the sitemap holds exactly one entry per static page, one per
neighborhood and one per hotel, with priority 1.0 for home, 0.5 for contact,
0.8 for each of the three guide pages, 0.9 for each neighborhood page and
0.7 for each hotel page, and every rendered `<url>` block carries the
generation run's current date as its `<lastmod>` value. -/
theorem sitemap_entries_spec (dateStr : String) (N : List Neighborhood)
    (hotels : List Hotel) :
    sitemapUrls N hotels =
      [⟨"https://hotelsofathens.com/", "1.0"⟩,
       ⟨"https://hotelsofathens.com/contact", "0.5"⟩,
       ⟨"https://hotelsofathens.com/budget-hotels-athens", "0.8"⟩,
       ⟨"https://hotelsofathens.com/luxury-hotels-athens", "0.8"⟩,
       ⟨"https://hotelsofathens.com/best-rooftop-bars-athens", "0.8"⟩] ++
      N.map (fun n => ⟨"https://hotelsofathens.com/athens-hotels/" ++ n.id, "0.9"⟩) ++
      hotels.map (fun h => ⟨"https://hotelsofathens.com/hotel/" ++ h.slug, "0.7"⟩) ∧
    (sitemapUrls N hotels).length = 5 + N.length + hotels.length ∧
    generateSitemap dateStr N hotels =
      "<?xml version=\"1.0\" encoding=\"UTF-8\"?>\n<urlset xmlns=\"http://www.sitemaps.org/schemas/sitemap/0.9\">\n" ++
      String.intercalate "\n" ((sitemapUrls N hotels).map (sitemapUrlXml dateStr)) ++
      "\n</urlset>" ∧
    ∀ u : UrlEntry, ∃ pre post : String,
      sitemapUrlXml dateStr u = pre ++ ("<lastmod>" ++ dateStr ++ "</lastmod>") ++ post := by
  refine ⟨rfl, ?_, rfl, fun u =>
    ⟨"  <url>\n    <loc>" ++ u.loc ++ "</loc>\n    ",
     "\n    <priority>" ++ u.priority ++ "</priority>\n  </url>", rfl⟩⟩
  simp [sitemapUrls]
  omega

end Athens
